import Mathlib

/-!
Verification development for the Clawdbot TTS pipeline and the audio-talk
extension.  Pure functions are embedded directly from the TypeScript
sources; effectful routines (process wrappers, RPC handlers, the talk
loop) are embedded as functions over an explicit environment that records
the outcome of each external effect.  The implementation file
`src/tts/tts.ts` is absent from the snapshot (only its unit tests and its
gateway callers are present), so the functions it exports are modelled
from the specification, as marked on each definition.
-/

/-! ## Generic string/list scanning helpers -/

/-- Splits `cs` at the first occurrence of the pattern `pat`: returns the
characters before the match and the characters after it (the match itself
removed), or `none` when the pattern does not occur. -/
def findSplit (pat : List Char) : List Char → Option (List Char × List Char)
  | [] => if pat.isEmpty then some ([], []) else none
  | c :: rest =>
    if pat.isPrefixOf (c :: rest) then
      some ([], (c :: rest).drop pat.length)
    else
      match findSplit pat rest with
      | some (b, a) => some (c :: b, a)
      | none => none

/-- `true` when the pattern occurs somewhere in `cs`. -/
def containsSub (cs pat : List Char) : Bool :=
  (findSplit pat cs).isSome

/-- Whitespace trim on both ends, computed on the character list (the
byte-position based `String.trim` does not reduce in the kernel). -/
def trimChars (s : String) : String :=
  String.mk (((s.data.dropWhile Char.isWhitespace).reverse.dropWhile
    Char.isWhitespace).reverse)

/-- First `n` characters of a string. -/
def takeFirst (n : Nat) (s : String) : String :=
  String.mk (s.data.take n)

/-- Splits a character list at every occurrence of `c` (the separator is
dropped; an empty input yields one empty field). -/
def splitOnChar (c : Char) : List Char → List (List Char)
  | [] => [[]]
  | x :: rest =>
    let r := splitOnChar c rest
    if x = c then [] :: r
    else
      match r with
      | h :: t => (x :: h) :: t
      | [] => [[x]]

/-- Splits a string into its newline-separated lines. -/
def splitLinesStr (s : String) : List String :=
  (splitOnChar (Char.ofNat 10) s.data).map String.mk

/-- Joins strings with a separator. -/
def joinWith (sep : String) : List String → String
  | [] => ""
  | [x] => x
  | x :: y :: rest => x ++ sep ++ joinWith sep (y :: rest)

/-- ASCII-lowercase of a string, computed on the character list. -/
def lowerStr (s : String) : String :=
  String.mk (s.data.map Char.toLower)

/-- Prefix test computed on the character lists. -/
def startsWithStr (pre s : String) : Bool :=
  pre.data.isPrefixOf s.data

/-- Numeric value of a run of decimal digit characters (most significant
first). -/
def digitsVal (cs : List Char) : Nat :=
  cs.foldl (fun acc c => acc * 10 + (c.toNat - 48)) 0

/-- Exact decimal number: `mantissa / 10 ^ scale`.  Used for directive
values so that parse results stay kernel-computable. -/
structure DecimalNum where
  mantissa : Int
  scale : Nat
  deriving DecidableEq

/-- Rational value denoted by a decimal number. -/
def DecimalNum.toRat (d : DecimalNum) : Rat :=
  (d.mantissa : Rat) / (10 : Rat) ^ d.scale

/-- Parses a plain decimal literal (optional leading minus, digits,
optional fractional part) into an exact decimal number; any other shape
yields `none`.  Models the silent drop of non-numeric directive
values. -/
def parseDecimal (s : String) : Option DecimalNum :=
  let cs := s.data
  let signSplit : Bool × List Char :=
    match cs with
    | '-' :: r => (true, r)
    | _ => (false, cs)
  let neg := signSplit.1
  let cs1 := signSplit.2
  let intPart := cs1.takeWhile Char.isDigit
  let rest := cs1.dropWhile Char.isDigit
  if intPart.isEmpty then none
  else
    match rest with
    | [] =>
      let m : Int := (digitsVal intPart : Int)
      some ⟨if neg then -m else m, 0⟩
    | '.' :: fr =>
      if fr.isEmpty || !(fr.all Char.isDigit) then none
      else
        let m : Int := (digitsVal (intPart ++ fr) : Int)
        some ⟨if neg then -m else m, fr.length⟩
    | _ => none

/-! ## TTS override data model (spec section 3) -/

/-- ElevenLabs voice settings overridable by directives. -/
structure VoiceSettings where
  stability : Option DecimalNum := none
  similarityBoost : Option DecimalNum := none
  style : Option DecimalNum := none
  speed : Option DecimalNum := none
  useSpeakerBoost : Option Bool := none
  deriving DecidableEq

/-- ElevenLabs-specific overrides. -/
structure ElevenLabsOverrides where
  voiceId : Option String := none
  modelId : Option String := none
  voiceSettings : VoiceSettings := {}
  applyTextNormalization : Option String := none
  languageCode : Option String := none
  seed : Option DecimalNum := none
  deriving DecidableEq

/-- OpenAI-specific overrides. -/
structure OpenAIOverrides where
  voice : Option String := none
  model : Option String := none
  deriving DecidableEq

/-- Sparse per-reply override record produced by the directive parser. -/
structure TtsOverrides where
  provider : Option String := none
  openai : OpenAIOverrides := {}
  elevenlabs : ElevenLabsOverrides := {}
  deriving DecidableEq

/-- Config shape feeding the override policy: an optional enable flag and
optional per-key allow flags. -/
structure OverridePolicyConfig where
  enabled : Option Bool := none
  allowKey : String → Option Bool := fun _ => none

/-- Resolved override policy: a definite enable flag plus a definite
per-key allow predicate. -/
structure ModelOverridePolicy where
  enabled : Bool
  allowKey : String → Bool

/-- Modelled from the spec: `resolveModelOverridePolicy` (implementation
file `src/tts/tts.ts` is absent from the snapshot).  The `enabled` flag
defaults to `true` when unset, and each per-key allow flag defaults to
`true` when omitted. -/
def resolveModelOverridePolicy (cfg : OverridePolicyConfig) : ModelOverridePolicy :=
  { enabled := cfg.enabled.getD true
    allowKey := fun k => (cfg.allowKey k).getD true }

/-! ## Directive parser (spec section 4.1) -/

def openTagChars : List Char := "[[tts:".data

def closeTagChars : List Char := "]]".data

def blockOpenChars : List Char := "[[tts:text]]".data

def blockCloseChars : List Char := "[[/tts:text]]".data

/-- Splits tag contents into whitespace-separated tokens.  The
accumulator holds the current token reversed. -/
def splitTokensAux : List Char → List Char → List (List Char)
  | [], cur => if cur.isEmpty then [] else [cur.reverse]
  | c :: rest, cur =>
    if c.isWhitespace then
      if cur.isEmpty then splitTokensAux rest []
      else cur.reverse :: splitTokensAux rest []
    else
      splitTokensAux rest (c :: cur)

def splitTokens (cs : List Char) : List (List Char) :=
  splitTokensAux cs []

/-- Splits a `key=value` token at the first equals sign; tokens with no
equals sign are dropped. -/
def keyValOf (tok : List Char) : Option (String × String) :=
  match findSplit ['='] tok with
  | some (k, v) => some (String.mk k, String.mk v)
  | none => none

/-- One scanning pass over the reply text: returns the cleaned character
stream, the raw contents of each well-terminated `[[tts:...]]` tag, and
the contents of the first `[[tts:text]]...[[/tts:text]]` block when
present.  Malformed or unterminated tags pass through untouched
(fail-open).  The fuel argument bounds recursion; each step consumes at
least one character so an initial fuel of the input length suffices. -/
def scanAux : Nat → List Char → List Char × List (List Char) × Option (List Char)
  | _, [] => ([], [], none)
  | 0, cs => (cs, [], none)
  | fuel + 1, c :: rest =>
    let cs := c :: rest
    if blockOpenChars.isPrefixOf cs then
      match findSplit blockCloseChars (cs.drop blockOpenChars.length) with
      | some (content, after) =>
        let r := scanAux fuel after
        (r.1, r.2.1, some (r.2.2.getD content))
      | none =>
        let r := scanAux fuel (cs.drop blockOpenChars.length)
        (blockOpenChars ++ r.1, r.2.1, r.2.2)
    else if openTagChars.isPrefixOf cs then
      match findSplit closeTagChars (cs.drop openTagChars.length) with
      | some (content, after) =>
        let r := scanAux fuel after
        (r.1, content :: r.2.1, r.2.2)
      | none =>
        (cs, [], none)
    else
      let r := scanAux fuel rest
      (c :: r.1, r.2.1, r.2.2)

/-- Applies one parsed `key=value` pair to the override record, honouring
the per-key allow flags; unrecognized keys and unparsable numeric or
boolean values are ignored. -/
def applyDirective (policy : ModelOverridePolicy) (ov : TtsOverrides)
    (kv : String × String) : TtsOverrides :=
  let k := kv.1
  let v := kv.2
  if policy.allowKey k then
    match k with
    | "provider" => { ov with provider := some v }
    | "voice" => { ov with openai := { ov.openai with voice := some v } }
    | "model" => { ov with openai := { ov.openai with model := some v } }
    | "voiceId" =>
      { ov with elevenlabs := { ov.elevenlabs with voiceId := some v } }
    | "stability" =>
      match parseDecimal v with
      | some q =>
        { ov with elevenlabs :=
          { ov.elevenlabs with voiceSettings :=
            { ov.elevenlabs.voiceSettings with stability := some q } } }
      | none => ov
    | "similarityBoost" =>
      match parseDecimal v with
      | some q =>
        { ov with elevenlabs :=
          { ov.elevenlabs with voiceSettings :=
            { ov.elevenlabs.voiceSettings with similarityBoost := some q } } }
      | none => ov
    | "style" =>
      match parseDecimal v with
      | some q =>
        { ov with elevenlabs :=
          { ov.elevenlabs with voiceSettings :=
            { ov.elevenlabs.voiceSettings with style := some q } } }
      | none => ov
    | "speed" =>
      match parseDecimal v with
      | some q =>
        { ov with elevenlabs :=
          { ov.elevenlabs with voiceSettings :=
            { ov.elevenlabs.voiceSettings with speed := some q } } }
      | none => ov
    | "useSpeakerBoost" =>
      if v = "true" then
        { ov with elevenlabs :=
          { ov.elevenlabs with voiceSettings :=
            { ov.elevenlabs.voiceSettings with useSpeakerBoost := some true } } }
      else if v = "false" then
        { ov with elevenlabs :=
          { ov.elevenlabs with voiceSettings :=
            { ov.elevenlabs.voiceSettings with useSpeakerBoost := some false } } }
      else ov
    | "applyTextNormalization" =>
      { ov with elevenlabs := { ov.elevenlabs with applyTextNormalization := some v } }
    | "languageCode" =>
      { ov with elevenlabs := { ov.elevenlabs with languageCode := some v } }
    | "seed" =>
      match parseDecimal v with
      | some q => { ov with elevenlabs := { ov.elevenlabs with seed := some q } }
      | none => ov
    | _ => ov
  else ov

/-- Result of the directive parser. -/
structure ParseResult where
  cleanedText : String
  ttsText : String
  overrides : TtsOverrides
  deriving DecidableEq

/-- Modelled from the spec: `parseTtsDirectives` (implementation file
`src/tts/tts.ts` is absent from the snapshot).  When the policy is
disabled the input passes through verbatim with empty overrides;
otherwise well-terminated `[[tts:...]]` tags are stripped and folded into
the override record, and the first `[[tts:text]]...[[/tts:text]]` block
becomes the speakable text. -/
def parseTtsDirectives (text : String) (policy : ModelOverridePolicy) : ParseResult :=
  if policy.enabled = false then
    { cleanedText := text, ttsText := "", overrides := {} }
  else
    let cs := text.data
    let r := scanAux (cs.length + 1) cs
    let kvs := (r.2.1.map (fun t => (splitTokens t).filterMap keyValOf)).flatten
    { cleanedText := String.mk r.1
      ttsText := trimChars (String.mk (r.2.2.getD []))
      overrides := kvs.foldl (applyDirective policy) {} }

/-- `true` when the string still contains a directive opener. -/
def containsTtsTag (s : String) : Bool :=
  containsSub s.data openTagChars

/-! ## Output format resolution (spec section 4.3) -/

/-- Audio output format spec: vendor codec identifiers, file extension
and voice-bubble compatibility. -/
structure OutputFormat where
  elevenlabs : String
  openai : String
  extension : String
  voiceCompatible : Bool
  deriving DecidableEq

/-- Modelled from the spec: `resolveOutputFormat` (implementation file
`src/tts/tts.ts` is absent from the snapshot).  Telegram gets the Opus
spec, every other channel the MP3 spec; pure and total. -/
def resolveOutputFormat (channel : String) : OutputFormat :=
  if channel = "telegram" then
    { elevenlabs := "opus_48000_64"
      openai := "opus"
      extension := ".opus"
      voiceCompatible := true }
  else
    { elevenlabs := "mp3_44100_128"
      openai := "mp3"
      extension := ".mp3"
      voiceCompatible := false }

/-! ## Summarizer (spec section 4.4) -/

/-- One content item of a model response. -/
inductive ContentItem where
  | text (s : String)
  | other
  deriving DecidableEq

/-- A model response: a list of content items. -/
structure ModelResponse where
  content : List ContentItem
  deriving DecidableEq

/-- Concatenated text of all text content items of a response. -/
def extractText (r : ModelResponse) : String :=
  String.join (r.content.filterMap fun item =>
    match item with
    | .text s => some s
    | .other => none)

/-- Error kinds raised by the summarizer. -/
inductive SummarizeError where
  | invalidArgument (msg : String)
  | noSummary (msg : String)
  deriving DecidableEq

/-- Successful summarizer output (the wall-clock latency field is
omitted from the model). -/
structure SummarizeResult where
  summary : String
  inputLength : Nat
  outputLength : Nat
  deriving DecidableEq

/-- Modelled from the spec: `summarizeText` (implementation file
`src/tts/tts.ts` is absent from the snapshot).  The model invocation is
abstracted into the `response` argument.  Validates the inclusive bounds
`100 <= targetLength <= 10000`, then fails with a no-summary error when
the response text trims to empty, and otherwise returns the trimmed
summary together with length metrics. -/
def summarizeText (text : String) (targetLength : Nat) (response : ModelResponse) :
    Except SummarizeError SummarizeResult :=
  if targetLength < 100 || 10000 < targetLength then
    .error (.invalidArgument ("Invalid targetLength: " ++ toString targetLength))
  else
    let summary := trimChars (extractText response)
    if summary = "" then
      .error (.noSummary "No summary returned")
    else
      .ok { summary := summary
            inputLength := text.length
            outputLength := summary.length }

/-- `true` exactly on invalid-argument failures of the summarizer. -/
def isInvalidArgErr (r : Except SummarizeError SummarizeResult) : Bool :=
  match r with
  | .error (.invalidArgument _) => true
  | _ => false

/-! ## Voice-ID validation -/

/-- Modelled from the spec: `isValidVoiceId` (implementation file
`src/tts/tts.ts` is absent from the snapshot; behaviour is pinned by its
unit tests in `src/tts/tts.test.ts`).  An ElevenLabs voice ID is valid
exactly when it is 10 to 40 characters long and consists solely of ASCII
letters and digits. -/
def isValidVoiceId (s : String) : Bool :=
  decide (10 ≤ s.length) && decide (s.length ≤ 40) &&
    s.data.all (fun c => c.isAlpha || c.isDigit)

/-! ## Provider selection (spec section 4.3) -/

/-- The two supported TTS providers. -/
inductive TtsProvider where
  | openai
  | elevenlabs
  deriving DecidableEq

/-- The other provider. -/
def otherProvider : TtsProvider → TtsProvider
  | .openai => .elevenlabs
  | .elevenlabs => .openai

/-- Modelled from the spec: `getTtsProvider` (implementation file
`src/tts/tts.ts` is absent from the snapshot).  Returns the configured
primary provider, except that when the primary has no API key and the
other provider has one, the other is selected instead; the swap is a
pure, one-time selection decision. -/
def getTtsProvider (primary : TtsProvider) (hasKey : TtsProvider → Bool) : TtsProvider :=
  if hasKey primary then primary
  else if hasKey (otherProvider primary) then otherProvider primary
  else primary

/-- Whether any provider has an API key; when `false` the caller treats
TTS as unavailable. -/
def ttsAvailable (hasKey : TtsProvider → Bool) : Bool :=
  hasKey .openai || hasKey .elevenlabs

/-! ## Gateway TTS RPC handlers (embedded from the gateway handler file,
`ttsHandlers`) -/

/-- Error codes used by the TTS handlers. -/
inductive ErrorCode where
  | invalidRequest
  | unavailable
  deriving DecidableEq

/-- Uniform error shape carried by a failed RPC response. -/
structure ErrShape where
  code : ErrorCode
  message : String
  deriving DecidableEq

/-- An RPC response: `respond(true, payload)` or
`respond(false, undefined, errorShape(code, message))`. -/
inductive RpcResponse (α : Type) where
  | ok (payload : α)
  | err (e : ErrShape)
  deriving DecidableEq

/-- A JSON parameter value as far as the handlers inspect it: a string,
or anything else. -/
inductive ParamValue where
  | str (s : String)
  | nonString
  deriving DecidableEq

/-- Parameters of `tts.convert`. -/
structure ConvertParams where
  text : Option ParamValue := none
  channel : Option ParamValue := none

/-- Result object of `textToSpeech` as inspected by the handler. -/
structure TtsCallResult where
  success : Bool
  audioPath : Option String
  provider : String
  outputFormat : String
  voiceCompatible : Bool
  error : Option String
  deriving DecidableEq

/-- Success payload of `tts.convert`. -/
structure ConvertPayload where
  audioPath : String
  provider : String
  outputFormat : String
  voiceCompatible : Bool
  deriving DecidableEq

/-- The trimmed text extracted from `tts.convert` parameters: the empty
string when the parameter is missing or not a string. -/
def convertTextOf (params : ConvertParams) : String :=
  match params.text with
  | some (.str s) => trimChars s
  | _ => ""

/-- The `tts.convert` handler: validates the text parameter, then runs
the body (`loadConfig` + `textToSpeech`, embedded as an `Except` whose
error is a thrown exception message) inside the try/catch. -/
def ttsConvertHandler (params : ConvertParams)
    (call : Except String TtsCallResult) : RpcResponse ConvertPayload :=
  let text := convertTextOf params
  if text = "" then
    .err ⟨.invalidRequest, "tts.convert requires text"⟩
  else
    match call with
    | .error e => .err ⟨.unavailable, e⟩
    | .ok result =>
      if result.success && !(result.audioPath.getD "").isEmpty then
        .ok ⟨result.audioPath.getD "", result.provider, result.outputFormat,
             result.voiceCompatible⟩
      else
        .err ⟨.unavailable, result.error.getD "TTS conversion failed"⟩

/-- Parameters of `tts.setProvider`. -/
structure SetProviderParams where
  provider : Option ParamValue := none

/-- The trimmed provider name from `tts.setProvider` parameters: the
empty string when missing or not a string. -/
def providerNameOf (params : SetProviderParams) : String :=
  match params.provider with
  | some (.str s) => trimChars s
  | _ => ""

/-- The `tts.setProvider` handler: validates the provider name, then
runs the body (`loadConfig` + `setTtsProvider`) inside the try/catch. -/
def ttsSetProviderHandler (params : SetProviderParams)
    (body : Except String Unit) : RpcResponse String :=
  let provider := providerNameOf params
  if provider ≠ "openai" ∧ provider ≠ "elevenlabs" then
    .err ⟨.invalidRequest, "Invalid provider. Use openai or elevenlabs."⟩
  else
    match body with
    | .error e => .err ⟨.unavailable, e⟩
    | .ok _ => .ok provider

/-- Shared shape of the `tts.status`, `tts.enable`, `tts.disable` and
`tts.providers` handlers: the whole body runs inside a try/catch and any
thrown error becomes an unavailable-coded error response. -/
def ttsSimpleHandler {α : Type} (body : Except String α) : RpcResponse α :=
  match body with
  | .ok payload => .ok payload
  | .error e => .err ⟨.unavailable, e⟩

/-! ## Whisper output parsing (embedded from `transcriber.ts`) -/

/-- Consumes exactly `n` decimal digits. -/
def matchDigits : Nat → List Char → Option (List Char)
  | 0, cs => some cs
  | _ + 1, [] => none
  | n + 1, c :: rest => if c.isDigit then matchDigits n rest else none

/-- Consumes exactly the character `c`. -/
def matchLit (c : Char) : List Char → Option (List Char)
  | [] => none
  | c2 :: rest => if c2 = c then some rest else none

/-- Consumes a colon or a dot. -/
def matchColonDot : List Char → Option (List Char)
  | [] => none
  | c :: rest => if c = ':' || c = '.' then some rest else none

/-- Matches one whisper timestamp tag
`[dd:dd[:.]ddd \s* --> \s* dd:dd[:.]ddd] \s*` at the head of the input,
returning the remainder after the match. -/
def matchTimestamp (cs : List Char) : Option (List Char) :=
  (matchLit '[' cs).bind fun r1 =>
  (matchDigits 2 r1).bind fun r2 =>
  (matchLit ':' r2).bind fun r3 =>
  (matchDigits 2 r3).bind fun r4 =>
  (matchColonDot r4).bind fun r5 =>
  (matchDigits 3 r5).bind fun r6 =>
  let r7 := r6.dropWhile Char.isWhitespace
  if ("-->".data).isPrefixOf r7 then
    let r8 := (r7.drop 3).dropWhile Char.isWhitespace
    (matchDigits 2 r8).bind fun r9 =>
    (matchLit ':' r9).bind fun r10 =>
    (matchDigits 2 r10).bind fun r11 =>
    (matchColonDot r11).bind fun r12 =>
    (matchDigits 3 r12).bind fun r13 =>
    (matchLit ']' r13).map fun r14 => r14.dropWhile Char.isWhitespace
  else none

/-- Removes every whisper timestamp tag (global regex replace).  Each
step consumes at least one character, so fuel equal to the input length
suffices. -/
def stripTimestampsAux : Nat → List Char → List Char
  | 0, cs => cs
  | _ + 1, [] => []
  | fuel + 1, c :: rest =>
    match matchTimestamp (c :: rest) with
    | some r => stripTimestampsAux fuel r
    | none => c :: stripTimestampsAux fuel rest

/-- Matches the log-line pattern of a thread count: one or more digits
followed by the word thread. -/
def threadsPrefix (t : String) : Bool :=
  let ds := t.data.takeWhile Char.isDigit
  !ds.isEmpty && (" thread".data).isPrefixOf (t.data.drop ds.length)

/-- The line filter of `parseWhisperOutput`: drops empty lines and
whisper.cpp log lines, keeps transcript lines. -/
def keepLine (line : String) : Bool :=
  let t := trimChars line
  if t = "" then false
  else if startsWithStr "whisper_" t then false
  else if startsWithStr "main:" t then false
  else if containsSub t.data "model:".data then false
  else if containsSub t.data "system_info:".data then false
  else if containsSub t.data "sampling:".data then false
  else if containsSub t.data "output:".data then false
  else if threadsPrefix t then false
  else if startsWithStr "processing" (lowerStr t) then false
  else if startsWithStr "loading model" (lowerStr t) then false
  else true

/-- Extracts the transcript from raw whisper.cpp output: strips
timestamp tags, drops log lines, joins the remaining trimmed lines with
single spaces. -/
def parseWhisperOutput (output : String) : String :=
  let without := String.mk (stripTimestampsAux (output.data.length + 1) output.data)
  let kept := (splitLinesStr without).filter keepLine
  trimChars (joinWith " " (kept.map trimChars))

/-! ## Process wrappers (embedded from `transcriber.ts`, `recorder.ts`
and `speaker.ts`).  A wrapper never rejects its promise: every process
outcome is mapped to a resolved result value.  The embedding makes that
total mapping explicit: the environment enumerates every possible
process outcome and each model is a total function on it. -/

/-- How the spawned process ended: a spawn error event, or a close event
with an exit code (`none` models a null exit code after a signal). -/
inductive ProcExit where
  | spawnError (msg : String)
  | close (code : Option Int)
  deriving DecidableEq

/-- Exit code rendered the way the template literals render it. -/
def codeStr : Option Int → String
  | some n => toString n
  | none => "null"

/-- Last `n` characters of a string (the negative-index slice). -/
def takeLast (n : Nat) (s : String) : String :=
  String.mk (s.data.drop (s.data.length - n))

/-- Environment of one `transcribe` call: the process outcome, whether
the abort listener fired, the outcome of reading the transcript file,
and the collected output streams. -/
structure TranscribeEnv where
  exit : ProcExit
  killed : Bool
  outputFileContent : Option String
  stdout : String
  stderr : String
  durationMs : Nat

/-- Result shape of `transcribe`. -/
structure TranscriberResult where
  success : Bool
  text : String
  durationMs : Nat
  error : Option String := none
  deriving DecidableEq

/-- The value `transcribe` resolves with, for a given process
outcome. -/
def transcribeModel (env : TranscribeEnv) : TranscriberResult :=
  match env.exit with
  | .spawnError msg =>
    { success := false, text := "", durationMs := env.durationMs
      error := some ("Failed to spawn whisper: " ++ msg) }
  | .close code =>
    if env.killed then
      { success := false, text := "", durationMs := env.durationMs
        error := some "Transcription aborted" }
    else if code ≠ some 0 then
      { success := false, text := "", durationMs := env.durationMs
        error := some ("Whisper exited with code " ++ codeStr code ++ ": "
          ++ takeFirst 500 env.stderr) }
    else
      match env.outputFileContent with
      | some t =>
        { success := true, text := trimChars t, durationMs := env.durationMs }
      | none =>
        { success := true
          text := parseWhisperOutput (env.stdout ++ env.stderr)
          durationMs := env.durationMs }

/-- Environment of one `recordAudio` call. -/
structure RecordEnv where
  exit : ProcExit
  killed : Bool
  stoppedByUser : Bool
  stderr : String
  durationMs : Nat

/-- Result shape of `recordAudio`. -/
structure RecorderResult where
  success : Bool
  outputPath : String
  durationMs : Nat
  error : Option String := none
  stoppedByUser : Bool := false
  deriving DecidableEq

/-- The value `recordAudio` resolves with, for a given process outcome.
A graceful user stop (Enter key) or the common interrupted-ffmpeg exit
code 255 counts as success. -/
def recordAudioModel (outputPath : String) (env : RecordEnv) : RecorderResult :=
  match env.exit with
  | .spawnError msg =>
    { success := false, outputPath := outputPath, durationMs := env.durationMs
      error := some ("Failed to spawn ffmpeg: " ++ msg) }
  | .close code =>
    if env.killed then
      { success := false, outputPath := outputPath, durationMs := env.durationMs
        error := some "Recording aborted" }
    else
      let isSuccess := code = some 0 || code = some 255 || env.stoppedByUser
      if isSuccess then
        { success := true, outputPath := outputPath, durationMs := env.durationMs
          stoppedByUser := env.stoppedByUser }
      else
        { success := false, outputPath := outputPath, durationMs := env.durationMs
          error := some ("ffmpeg exited with code " ++ codeStr code ++ ": "
            ++ takeLast 500 env.stderr) }

/-- Environment of one `speak` call. -/
structure SpeakEnv where
  exit : ProcExit
  killed : Bool
  stderr : String

/-- Result shape of `speak`. -/
structure SpeakerResult where
  success : Bool
  error : Option String := none
  deriving DecidableEq

/-- The value `speak` resolves with, for a given process outcome.  An
abort counts as success (graceful stop). -/
def speakModel (env : SpeakEnv) : SpeakerResult :=
  match env.exit with
  | .spawnError msg =>
    { success := false, error := some ("Failed to spawn say: " ++ msg) }
  | .close code =>
    if env.killed then
      { success := true }
    else if code ≠ some 0 then
      { success := false
        error := some ("say exited with code " ++ codeStr code ++ ": "
          ++ takeFirst 200 env.stderr) }
    else
      { success := true }

/-! ## Voice conversation loop (embedded from `loop.ts`) -/

/-- One completed conversation turn. -/
structure TalkTurn where
  userText : String
  assistantText : String
  transcriptionMs : Nat
  responseMs : Nat
  deriving DecidableEq

/-- Environment of one `runTurn` call: outcomes of the fixture copy, the
recording, the transcription, the agent call and the speech. -/
structure TurnEnv where
  fixtureCopyOk : Bool
  fixtureCopyError : String
  tempPath : String
  recordEnv : RecordEnv
  transcribeEnv : TranscribeEnv
  agentText : String
  agentDurationMs : Nat
  speakEnv : SpeakEnv

/-- Outcome of one `runTurn` call, as consumed by the loop. -/
inductive TurnOutcome where
  | aborted
  | failed (error : Option String)
  | noTurn
  | completed (t : TalkTurn)
  deriving DecidableEq

/-- The value `runTurn` resolves with.  With a fixture the audio comes
from copying the fixture file; otherwise from the recorder.  A
transcript that trims to empty or an empty agent response yields a
successful no-turn outcome; a speech failure is only logged and does not
affect the outcome. -/
def runTurnModel (fixture : Option String) (env : TurnEnv) : TurnOutcome :=
  let audioFailure : Option TurnOutcome :=
    match fixture with
    | some _ =>
      if env.fixtureCopyOk then none
      else some (.failed (some ("Failed to read fixture: " ++ env.fixtureCopyError)))
    | none =>
      let r := recordAudioModel env.tempPath env.recordEnv
      if r.success then none
      else if r.error = some "Recording aborted" then some .aborted
      else some (.failed r.error)
  match audioFailure with
  | some o => o
  | none =>
    let tr := transcribeModel env.transcribeEnv
    if !tr.success then
      if tr.error = some "Transcription aborted" then .aborted
      else .failed tr.error
    else
      let userText := trimChars tr.text
      if userText = "" then .noTurn
      else if env.agentText = "" then .noTurn
      else
        .completed
          { userText := userText
            assistantText := env.agentText
            transcriptionMs := tr.durationMs
            responseMs := env.agentDurationMs }

/-- Result shape of `runTalkLoop`. -/
structure TalkLoopResult where
  turns : Nat
  aborted : Bool
  error : Option String := none
  deriving DecidableEq

/-- The main loop of `runTalkLoop`.  The script lists, for each
iteration, the abort-signal state read at the top of the loop and the
turn environment; `acc` counts completed turns.  Returns `none` when the
scripted iterations run out with the loop still running (only possible
outside one-shot and fixture modes). -/
def runLoopAux (oneShot : Bool) (fixture : Option String) :
    List (Bool × TurnEnv) → Nat → Option TalkLoopResult
  | [], _ => none
  | (ab, env) :: rest, acc =>
    if ab then some { turns := acc, aborted := true }
    else
      match runTurnModel fixture env with
      | .aborted => some { turns := acc, aborted := true }
      | .failed e => some { turns := acc, aborted := false, error := e }
      | .noTurn =>
        if oneShot || fixture.isSome then some { turns := acc, aborted := false }
        else runLoopAux oneShot fixture rest acc
      | .completed _ =>
        if oneShot || fixture.isSome then some { turns := acc + 1, aborted := false }
        else runLoopAux oneShot fixture rest (acc + 1)

/-- The value `runTalkLoop` resolves with: the early returns for missing
whisper paths and for a failed `agentCommand` import, then the main
loop. -/
def runTalkLoopModel (oneShot : Bool) (fixture : Option String)
    (pathsOk : Bool) (agentLoad : Except String Unit)
    (script : List (Bool × TurnEnv)) : Option TalkLoopResult :=
  if !pathsOk then
    some { turns := 0, aborted := false
           error := some "Whisper binary or model not found" }
  else
    match agentLoad with
    | .error e => some { turns := 0, aborted := false, error := some e }
    | .ok _ => runLoopAux oneShot fixture script 0

/-- A concrete turn environment in which every stage succeeds: used to
exhibit a completed one-shot turn. -/
def turnEnvOk : TurnEnv :=
  { fixtureCopyOk := true, fixtureCopyError := "", tempPath := "/tmp/rec.wav"
    recordEnv := { exit := .close (some 0), killed := false, stoppedByUser := false,
                   stderr := "", durationMs := 10 }
    transcribeEnv := { exit := .close (some 0), killed := false,
                       outputFileContent := some "hello there", stdout := "",
                       stderr := "", durationMs := 20 }
    agentText := "hi", agentDurationMs := 30
    speakEnv := { exit := .close (some 0), killed := false, stderr := "" } }

/-! ## Theorems -/

/-- C1: when the override policy is disabled, the directive parser
returns the input text unchanged as `cleanedText`, an empty `ttsText`
and an empty override set, for every input string. -/
theorem parseTtsDirectives_disabled_identity (s : String) (p : ModelOverridePolicy)
    (h : p.enabled = false) :
    (parseTtsDirectives s p).cleanedText = s ∧
    (parseTtsDirectives s p).ttsText = "" ∧
    (parseTtsDirectives s p).overrides = {} := by
  simp [parseTtsDirectives, h]

/-- Witness for C1 at a concrete directive-bearing input and a policy
resolved from a disabled config. -/
theorem parseTtsDirectives_disabled_identity_witness :
    (resolveModelOverridePolicy { enabled := some false }).enabled = false ∧
    (parseTtsDirectives "Hello [[tts:voice=alloy]] world"
        (resolveModelOverridePolicy { enabled := some false })).cleanedText
      = "Hello [[tts:voice=alloy]] world" :=
  ⟨rfl, (parseTtsDirectives_disabled_identity _ _ rfl).1⟩

/-- C2: `resolveOutputFormat` maps the channel telegram to the Opus spec
(codecs opus_48000_64 and opus, extension .opus, voice compatible) and
every other channel to the MP3 spec (codecs mp3_44100_128 and mp3,
extension .mp3, not voice compatible); it is a pure total function with
no error case. -/
theorem resolveOutputFormat_channel_spec (c : String) (h : c ≠ "telegram") :
    resolveOutputFormat "telegram" =
      { elevenlabs := "opus_48000_64", openai := "opus", extension := ".opus",
        voiceCompatible := true } ∧
    resolveOutputFormat c =
      { elevenlabs := "mp3_44100_128", openai := "mp3", extension := ".mp3",
        voiceCompatible := false } :=
  ⟨rfl, by simp [resolveOutputFormat, h]⟩

/-- Witness for C2 at the concrete non-telegram channel discord. -/
theorem resolveOutputFormat_channel_spec_witness :
    "discord" ≠ "telegram" ∧
    resolveOutputFormat "discord" =
      { elevenlabs := "mp3_44100_128", openai := "mp3", extension := ".mp3",
        voiceCompatible := false } :=
  ⟨by decide, (resolveOutputFormat_channel_spec "discord" (by decide)).2⟩

/-- C3: with an enabled policy, parsing a reply containing the tag
`[[tts:provider=elevenlabs voiceId=pMsXgVXv3BLzUgSXRplE speed=1.1]]`
yields provider elevenlabs, the given voice ID, speed 1.1 (the decimal
11/10), and a cleaned text no longer containing the directive. -/
theorem parseTtsDirectives_roundtrip :
    (parseTtsDirectives
        "Hello [[tts:provider=elevenlabs voiceId=pMsXgVXv3BLzUgSXRplE speed=1.1]] world"
        (resolveModelOverridePolicy { enabled := some true })).overrides.provider
      = some "elevenlabs" ∧
    (parseTtsDirectives
        "Hello [[tts:provider=elevenlabs voiceId=pMsXgVXv3BLzUgSXRplE speed=1.1]] world"
        (resolveModelOverridePolicy { enabled := some true })).overrides.elevenlabs.voiceId
      = some "pMsXgVXv3BLzUgSXRplE" ∧
    (parseTtsDirectives
        "Hello [[tts:provider=elevenlabs voiceId=pMsXgVXv3BLzUgSXRplE speed=1.1]] world"
        (resolveModelOverridePolicy { enabled := some true })).overrides.elevenlabs.voiceSettings.speed
      = some ⟨11, 1⟩ ∧
    DecimalNum.toRat ⟨11, 1⟩ = 11 / 10 ∧
    containsTtsTag
      (parseTtsDirectives
        "Hello [[tts:provider=elevenlabs voiceId=pMsXgVXv3BLzUgSXRplE speed=1.1]] world"
        (resolveModelOverridePolicy { enabled := some true })).cleanedText = false := by
  refine ⟨by decide, by decide, by decide, ?_, by decide⟩
  norm_num [DecimalNum.toRat]

/-- C4: the summarizer fails with an invalid-argument error exactly when
the target length lies outside the inclusive range 100 to 10000, and
succeeds on in-range targets whenever the model response has usable
text. -/
theorem summarizeText_targetLength_bounds (text : String) (t : Nat) (r : ModelResponse)
    (hr : trimChars (extractText r) ≠ "") :
    (isInvalidArgErr (summarizeText text t r) = true ↔ (t < 100 ∨ 10000 < t)) ∧
    (100 ≤ t → t ≤ 10000 → ∃ out, summarizeText text t r = .ok out) := by
  by_cases h1 : t < 100 ∨ 10000 < t
  · have hb : (decide (t < 100) || decide (10000 < t)) = true := by
      rcases h1 with h | h <;> simp [h]
    constructor
    · simp [summarizeText, isInvalidArgErr, hb, h1]
    · intro h2 h3
      omega
  · have hb : (decide (t < 100) || decide (10000 < t)) = false := by
      simp only [not_or, not_lt] at h1
      simp [Nat.not_lt_of_le h1.1, Nat.not_lt_of_le h1.2]
    constructor
    · simp [summarizeText, isInvalidArgErr, hb, hr, h1]
    · intro _ _
      refine ⟨{ summary := trimChars (extractText r), inputLength := text.length,
                outputLength := (trimChars (extractText r)).length }, ?_⟩
      simp [summarizeText, hb, hr]

/-- Witness for C4 at the boundary targets 99, 100, 10000 and 10001
with a concrete non-empty model response. -/
theorem summarizeText_targetLength_bounds_witness :
    (trimChars (extractText ⟨[.text "Summary"]⟩) ≠ "") ∧
    isInvalidArgErr (summarizeText "text" 99 ⟨[.text "Summary"]⟩) = true ∧
    isInvalidArgErr (summarizeText "text" 10001 ⟨[.text "Summary"]⟩) = true ∧
    (∃ out, summarizeText "text" 100 ⟨[.text "Summary"]⟩ = .ok out) ∧
    (∃ out, summarizeText "text" 10000 ⟨[.text "Summary"]⟩ = .ok out) :=
  ⟨by decide,
   (summarizeText_targetLength_bounds "text" 99 ⟨[.text "Summary"]⟩ (by decide)).1.mpr
     (by decide),
   (summarizeText_targetLength_bounds "text" 10001 ⟨[.text "Summary"]⟩ (by decide)).1.mpr
     (by decide),
   (summarizeText_targetLength_bounds "text" 100 ⟨[.text "Summary"]⟩ (by decide)).2
     (by decide) (by decide),
   (summarizeText_targetLength_bounds "text" 10000 ⟨[.text "Summary"]⟩ (by decide)).2
     (by decide) (by decide)⟩

/-- C5: for every in-range target length, when the model response has no
text content or only whitespace the summarizer fails with the
no-summary-returned error; it never falls back to the original text. -/
theorem summarizeText_empty_response (text : String) (t : Nat) (r : ModelResponse)
    (h1 : 100 ≤ t) (h2 : t ≤ 10000) (hr : trimChars (extractText r) = "") :
    summarizeText text t r = .error (.noSummary "No summary returned") := by
  have hb : (decide (t < 100) || decide (10000 < t)) = false := by
    simp [Nat.not_lt_of_le h1, Nat.not_lt_of_le h2]
  simp [summarizeText, hb, hr]

/-- Witness for C5 at a whitespace-only model response. -/
theorem summarizeText_empty_response_witness :
    (100 ≤ 500 ∧ 500 ≤ 10000 ∧ trimChars (extractText ⟨[.text "   "]⟩) = "") ∧
    summarizeText "text" 500 ⟨[.text "   "]⟩ = .error (.noSummary "No summary returned") :=
  ⟨⟨by decide, by decide, by decide⟩,
   summarizeText_empty_response "text" 500 ⟨[.text "   "]⟩ (by decide) (by decide)
     (by decide)⟩

/-- C6: the gateway TTS handlers classify and contain errors:
`tts.convert` answers an invalid-request error whenever the text
parameter is missing, not a string, or trims to empty; `tts.setProvider`
answers an invalid-request error for any provider other than openai or
elevenlabs; and every error thrown inside any handler body becomes a
uniform unavailable-coded error response, so no exception crosses the
RPC boundary. -/
theorem ttsHandlers_classify_and_contain :
    (∀ params call, convertTextOf params = "" →
      ttsConvertHandler params call =
        .err ⟨.invalidRequest, "tts.convert requires text"⟩) ∧
    (∀ params e, convertTextOf params ≠ "" →
      ttsConvertHandler params (.error e) = .err ⟨.unavailable, e⟩) ∧
    (∀ params body, providerNameOf params ≠ "openai" →
      providerNameOf params ≠ "elevenlabs" →
      ttsSetProviderHandler params body =
        .err ⟨.invalidRequest, "Invalid provider. Use openai or elevenlabs."⟩) ∧
    (∀ params e,
      (providerNameOf params = "openai" ∨ providerNameOf params = "elevenlabs") →
      ttsSetProviderHandler params (.error e) = .err ⟨.unavailable, e⟩) ∧
    (∀ (α : Type) (e : String),
      (ttsSimpleHandler (Except.error e) : RpcResponse α) = .err ⟨.unavailable, e⟩) := by
  refine ⟨?_, ?_, ?_, ?_, ?_⟩
  · intro params call h
    simp [ttsConvertHandler, h]
  · intro params e h
    simp [ttsConvertHandler, h]
  · intro params body h1 h2
    simp [ttsSetProviderHandler, h1, h2]
  · intro params e h
    rcases h with h | h <;> simp [ttsSetProviderHandler, h]
  · intro α e
    rfl

/-- Witness for C6 at concrete parameters: whitespace-only text, a
non-string-free valid text with a thrown error, an unknown provider
name, a valid provider with a thrown error, and a thrown error in a
simple handler. -/
theorem ttsHandlers_classify_and_contain_witness :
    (convertTextOf { text := some (.str "   ") } = "" ∧
      ttsConvertHandler { text := some (.str "   ") } (.error "boom")
        = .err ⟨.invalidRequest, "tts.convert requires text"⟩) ∧
    (convertTextOf { text := some (.str "hi") } ≠ "" ∧
      ttsConvertHandler { text := some (.str "hi") } (.error "boom")
        = .err ⟨.unavailable, "boom"⟩) ∧
    (providerNameOf { provider := some (.str "azure") } ≠ "openai" ∧
      providerNameOf { provider := some (.str "azure") } ≠ "elevenlabs" ∧
      ttsSetProviderHandler { provider := some (.str "azure") } (.ok ())
        = .err ⟨.invalidRequest, "Invalid provider. Use openai or elevenlabs."⟩) ∧
    (providerNameOf { provider := some (.str "openai") } = "openai" ∧
      ttsSetProviderHandler { provider := some (.str "openai") } (.error "boom")
        = .err ⟨.unavailable, "boom"⟩) ∧
    (ttsSimpleHandler (Except.error "boom") : RpcResponse Nat)
      = .err ⟨.unavailable, "boom"⟩ :=
  ⟨⟨by decide, ttsHandlers_classify_and_contain.1 _ _ (by decide)⟩,
   ⟨by decide, ttsHandlers_classify_and_contain.2.1 _ _ (by decide)⟩,
   ⟨by decide, by decide,
    ttsHandlers_classify_and_contain.2.2.1 _ _ (by decide) (by decide)⟩,
   ⟨by decide,
    ttsHandlers_classify_and_contain.2.2.2.1 _ _ (Or.inl (by decide))⟩,
   ttsHandlers_classify_and_contain.2.2.2.2 Nat "boom"⟩

/-- C7: provider selection returns the configured primary provider when
its key is present, swaps to the other provider when the primary has no
key but the other does, and when neither key is present the selected
provider also has no key, so the caller treats TTS as unavailable. -/
theorem getTtsProvider_selection (p : TtsProvider) (k : TtsProvider → Bool) :
    (k p = true → getTtsProvider p k = p) ∧
    (k p = false → k (otherProvider p) = true → getTtsProvider p k = otherProvider p) ∧
    (ttsAvailable k = false → k (getTtsProvider p k) = false) := by
  refine ⟨fun h => by simp [getTtsProvider, h],
          fun h1 h2 => by simp [getTtsProvider, h1, h2],
          fun h => ?_⟩
  have h1 : k .openai = false ∧ k .elevenlabs = false := by
    simpa [ttsAvailable] using h
  cases p <;> simp [getTtsProvider, otherProvider, h1.1, h1.2]

/-- Witness for C7: with openai configured as primary but only the
elevenlabs key present, selection swaps to elevenlabs. -/
theorem getTtsProvider_selection_witness :
    ((fun pr => match pr with | .openai => false | .elevenlabs => true) TtsProvider.openai
        = false) ∧
    ((fun pr => match pr with | .openai => false | .elevenlabs => true)
        (otherProvider .openai) = true) ∧
    getTtsProvider .openai
        (fun pr => match pr with | .openai => false | .elevenlabs => true)
      = otherProvider .openai :=
  ⟨rfl, rfl,
   (getTtsProvider_selection .openai
      (fun pr => match pr with | .openai => false | .elevenlabs => true)).2.1 rfl rfl⟩

/-- C8 counterexample: `recordAudio` resolves with success true and no
error on the nonzero exit code 255 without abort or user stop, refuting
the claim that a nonzero exit code always yields success false with an
error string. -/
theorem recordAudio_nonzero_exit_success_counterexample :
    (recordAudioModel "/tmp/clawdbot.wav"
      { exit := .close (some 255), killed := false, stoppedByUser := false,
        stderr := "interrupted", durationMs := 1200 }).success = true ∧
    (recordAudioModel "/tmp/clawdbot.wav"
      { exit := .close (some 255), killed := false, stoppedByUser := false,
        stderr := "interrupted", durationMs := 1200 }).error = none := by
  decide

/-- C8 (amended): the process wrappers map every process outcome to a
resolved result value (the models are total on the exhaustive outcome
type, so no promise rejection exists): spawn failure and abort resolve
with success false and an error string, except that an aborted `speak`
resolves with success true; a nonzero exit code resolves with success
false and an error string for `transcribe` and `speak`, while
`recordAudio` additionally treats exit code 255 or a user-initiated stop
as success. -/
theorem processWrappers_resolve_spec :
    (∀ m k fc so se d, transcribeModel ⟨.spawnError m, k, fc, so, se, d⟩
        = { success := false, text := "", durationMs := d,
            error := some ("Failed to spawn whisper: " ++ m) }) ∧
    (∀ code fc so se d, transcribeModel ⟨.close code, true, fc, so, se, d⟩
        = { success := false, text := "", durationMs := d,
            error := some "Transcription aborted" }) ∧
    (∀ code fc so se d, code ≠ some 0 →
      transcribeModel ⟨.close code, false, fc, so, se, d⟩
        = { success := false, text := "", durationMs := d,
            error := some ("Whisper exited with code " ++ codeStr code ++ ": "
              ++ takeFirst 500 se) }) ∧
    (∀ fc so se d,
      (transcribeModel ⟨.close (some 0), false, fc, so, se, d⟩).success = true) ∧
    (∀ p m k sb se d, recordAudioModel p ⟨.spawnError m, k, sb, se, d⟩
        = { success := false, outputPath := p, durationMs := d,
            error := some ("Failed to spawn ffmpeg: " ++ m) }) ∧
    (∀ p code sb se d, recordAudioModel p ⟨.close code, true, sb, se, d⟩
        = { success := false, outputPath := p, durationMs := d,
            error := some "Recording aborted" }) ∧
    (∀ p code se d, code ≠ some 0 → code ≠ some 255 →
      recordAudioModel p ⟨.close code, false, false, se, d⟩
        = { success := false, outputPath := p, durationMs := d,
            error := some ("ffmpeg exited with code " ++ codeStr code ++ ": "
              ++ takeLast 500 se) }) ∧
    (∀ p code sb se d, (code = some 0 ∨ code = some 255 ∨ sb = true) →
      (recordAudioModel p ⟨.close code, false, sb, se, d⟩).success = true ∧
      (recordAudioModel p ⟨.close code, false, sb, se, d⟩).error = none) ∧
    (∀ m k se, speakModel ⟨.spawnError m, k, se⟩
        = { success := false, error := some ("Failed to spawn say: " ++ m) }) ∧
    (∀ code se, speakModel ⟨.close code, true, se⟩ = { success := true }) ∧
    (∀ code se, code ≠ some 0 → speakModel ⟨.close code, false, se⟩
        = { success := false, error := some ("say exited with code " ++ codeStr code
            ++ ": " ++ takeFirst 200 se) }) ∧
    (∀ se, speakModel ⟨.close (some 0), false, se⟩ = { success := true }) := by
  refine ⟨?_, ?_, ?_, ?_, ?_, ?_, ?_, ?_, ?_, ?_, ?_, ?_⟩
  · intro m k fc so se d
    rfl
  · intro code fc so se d
    rfl
  · intro code fc so se d h
    simp [transcribeModel, h]
  · intro fc so se d
    cases fc <;> rfl
  · intro p m k sb se d
    rfl
  · intro p code sb se d
    rfl
  · intro p code se d h1 h2
    simp [recordAudioModel, h1, h2]
  · intro p code sb se d h
    rcases h with h | h | h <;> simp [recordAudioModel, h]
  · intro m k se
    rfl
  · intro code se
    rfl
  · intro code se h
    simp [speakModel, h]
  · intro se
    rfl

/-- Witness for the amended C8 at concrete process outcomes: a failed
whisper exit, a clean ffmpeg exit, a failed ffmpeg exit, and a failed
say exit. -/
theorem processWrappers_resolve_spec_witness :
    (some (3 : Int) ≠ some 0 ∧
      transcribeModel ⟨.close (some 3), false, none, "", "boom", 10⟩
        = { success := false, text := "", durationMs := 10,
            error := some ("Whisper exited with code " ++ codeStr (some 3) ++ ": "
              ++ takeFirst 500 "boom") }) ∧
    ((some (0 : Int) = some 0 ∨ some (0 : Int) = some 255 ∨ false = true) ∧
      (recordAudioModel "/tmp/r.wav" ⟨.close (some 0), false, false, "", 7⟩).success
        = true) ∧
    (some (7 : Int) ≠ some 0 ∧ some (7 : Int) ≠ some 255 ∧
      recordAudioModel "/tmp/r.wav" ⟨.close (some 7), false, false, "bad", 7⟩
        = { success := false, outputPath := "/tmp/r.wav", durationMs := 7,
            error := some ("ffmpeg exited with code " ++ codeStr (some 7) ++ ": "
              ++ takeLast 500 "bad") }) ∧
    (some (2 : Int) ≠ some 0 ∧
      speakModel ⟨.close (some 2), false, "bad"⟩
        = { success := false, error := some ("say exited with code " ++ codeStr (some 2)
            ++ ": " ++ takeFirst 200 "bad") }) :=
  ⟨⟨by decide,
    processWrappers_resolve_spec.2.2.1 (some 3) none "" "boom" 10 (by decide)⟩,
   ⟨Or.inl rfl,
    (processWrappers_resolve_spec.2.2.2.2.2.2.2.1 "/tmp/r.wav" (some 0) false "" 7
      (Or.inl rfl)).1⟩,
   ⟨by decide, by decide,
    processWrappers_resolve_spec.2.2.2.2.2.2.1 "/tmp/r.wav" (some 7) "bad" 7
      (by decide) (by decide)⟩,
   ⟨by decide,
    processWrappers_resolve_spec.2.2.2.2.2.2.2.2.2.2.1 (some 2) "bad" (by decide)⟩⟩

/-- A completed turn requires a transcript that does not trim to empty
and a non-empty agent response. -/
theorem runTurnModel_completed_texts (fixture : Option String) (env : TurnEnv)
    (t : TalkTurn) (h : runTurnModel fixture env = .completed t) :
    trimChars (transcribeModel env.transcribeEnv).text ≠ "" ∧ env.agentText ≠ "" := by
  rcases fixture with _ | fx
  · cases hrec : (recordAudioModel env.tempPath env.recordEnv).success with
    | false =>
      by_cases hre : (recordAudioModel env.tempPath env.recordEnv).error
          = some "Recording aborted"
      · simp [runTurnModel, hrec, hre] at h
      · simp [runTurnModel, hrec, hre] at h
    | true =>
      cases htr : (transcribeModel env.transcribeEnv).success with
      | false =>
        by_cases hte : (transcribeModel env.transcribeEnv).error
            = some "Transcription aborted"
        · simp [runTurnModel, hrec, htr, hte] at h
        · simp [runTurnModel, hrec, htr, hte] at h
      | true =>
        by_cases h1 : trimChars (transcribeModel env.transcribeEnv).text = ""
        · simp [runTurnModel, hrec, htr, h1] at h
        · by_cases h2 : env.agentText = ""
          · simp [runTurnModel, hrec, htr, h1, h2] at h
          · exact ⟨h1, h2⟩
  · by_cases hfc : env.fixtureCopyOk = true
    · cases htr : (transcribeModel env.transcribeEnv).success with
      | false =>
        by_cases hte : (transcribeModel env.transcribeEnv).error
            = some "Transcription aborted"
        · simp [runTurnModel, hfc, htr, hte] at h
        · simp [runTurnModel, hfc, htr, hte] at h
      | true =>
        by_cases h1 : trimChars (transcribeModel env.transcribeEnv).text = ""
        · simp [runTurnModel, hfc, htr, h1] at h
        · by_cases h2 : env.agentText = ""
          · simp [runTurnModel, hfc, htr, h1, h2] at h
          · exact ⟨h1, h2⟩
    · simp [runTurnModel, hfc] at h

/-- C9: in one-shot or fixture mode the conversation loop executes at
most one turn (the result is independent of any scripted iterations
beyond the first) and always returns, with a turn count of at most one
that equals one exactly when the first iteration was not pre-aborted and
produced a completed turn; a completed turn requires both a non-empty
trimmed transcript and a non-empty agent response. -/
theorem runTalkLoop_single_turn (oneShot : Bool) (fixture : Option String)
    (ab : Bool) (env : TurnEnv) (rest : List (Bool × TurnEnv))
    (hmode : oneShot = true ∨ fixture.isSome = true) :
    runTalkLoopModel oneShot fixture true (.ok ()) ((ab, env) :: rest)
      = runTalkLoopModel oneShot fixture true (.ok ()) [(ab, env)] ∧
    (∃ res, runTalkLoopModel oneShot fixture true (.ok ()) ((ab, env) :: rest) = some res ∧
      res.turns ≤ 1 ∧
      (res.turns = 1 ↔ ab = false ∧ ∃ t, runTurnModel fixture env = .completed t) ∧
      (∀ t, runTurnModel fixture env = .completed t →
        trimChars (transcribeModel env.transcribeEnv).text ≠ "" ∧ env.agentText ≠ "")) := by
  have hOr : (oneShot || fixture.isSome) = true := by
    rcases hmode with h | h <;> simp [h]
  cases ab with
  | true =>
    exact ⟨rfl, ⟨{ turns := 0, aborted := true },
      by simp [runTalkLoopModel, runLoopAux], Nat.zero_le 1, by simp,
      fun t ht => runTurnModel_completed_texts fixture env t ht⟩⟩
  | false =>
    cases houtcome : runTurnModel fixture env with
    | aborted =>
      exact ⟨by simp [runTalkLoopModel, runLoopAux, houtcome],
        ⟨{ turns := 0, aborted := true },
          by simp [runTalkLoopModel, runLoopAux, houtcome], Nat.zero_le 1,
          by simp, fun t ht => nomatch ht⟩⟩
    | failed e =>
      exact ⟨by simp [runTalkLoopModel, runLoopAux, houtcome],
        ⟨{ turns := 0, aborted := false, error := e },
          by simp [runTalkLoopModel, runLoopAux, houtcome], Nat.zero_le 1,
          by simp, fun t ht => nomatch ht⟩⟩
    | noTurn =>
      exact ⟨by simp [runTalkLoopModel, runLoopAux, houtcome, hOr],
        ⟨{ turns := 0, aborted := false },
          by simp [runTalkLoopModel, runLoopAux, houtcome, hOr], Nat.zero_le 1,
          by simp, fun t ht => nomatch ht⟩⟩
    | completed t0 =>
      exact ⟨by simp [runTalkLoopModel, runLoopAux, houtcome, hOr],
        ⟨{ turns := 1, aborted := false },
          by simp [runTalkLoopModel, runLoopAux, houtcome, hOr], Nat.le_refl 1,
          by simp,
          fun t ht => runTurnModel_completed_texts fixture env t (houtcome.trans ht)⟩⟩

/-- Witness for C9 in one-shot mode with a concrete all-success turn
environment. -/
theorem runTalkLoop_single_turn_witness :
    (true = true ∨ (none : Option String).isSome = true) ∧
    (∃ res, runTalkLoopModel true none true (.ok ()) [(false, turnEnvOk)] = some res ∧
      res.turns ≤ 1 ∧
      (res.turns = 1 ↔ false = false ∧ ∃ t, runTurnModel none turnEnvOk = .completed t) ∧
      (∀ t, runTurnModel none turnEnvOk = .completed t →
        trimChars (transcribeModel turnEnvOk.transcribeEnv).text ≠ ""
          ∧ turnEnvOk.agentText ≠ "")) :=
  ⟨Or.inl rfl,
   (runTalkLoop_single_turn true none false turnEnvOk [] (Or.inl rfl)).2⟩

/-- C10: an ElevenLabs voice ID is accepted exactly when it is 10 to 40
characters long and every character is an ASCII letter or digit, so any
string containing a hyphen, underscore, space, slash, dot or other
non-alphanumeric character is rejected. -/
theorem isValidVoiceId_characterization (s : String) :
    isValidVoiceId s = true ↔
      (10 ≤ s.length ∧ s.length ≤ 40 ∧ ∀ c ∈ s.data, (c.isAlpha || c.isDigit) = true) := by
  simp [isValidVoiceId, List.all_eq_true, Bool.and_eq_true, decide_eq_true_iff, and_assoc]
